import Mathlib

/-
  Verification of the configuration layer of pkking/kafka-lib
  (file src/mq/options.go, package mq).

  The Go code is shallowly embedded:
  * Go structs become Lean structures with the same field names;
  * nilable Go values (interfaces, pointers, context.Context) become
    `Option _` with `none` for nil;
  * opaque external capabilities (Codecer, Handler, Logger, *tls.Config,
    sarama.KafkaVersion) are modelled as handle structures, since the
    configuration layer never inspects them;
  * the Strategy interface exposes exactly one observable, the identity
    string returned by Strategy(); an interface value is therefore
    modelled by that string;
  * each functional option (Go type `Option`, `SubscribeOption`) becomes
    a function on the settings record, and an inductive type reifies the
    closed family of configurators defined in the file so that theorems
    can quantify over configurator sequences.
-/

namespace mq

/-- Go `interface{}` values used as context keys/values, modelled as
an abstract countable universe of comparable values. -/
abbrev GoAny := Nat

/-- Handle for the external `Codecer` capability interface. -/
structure Codecer where
  id : Nat
deriving DecidableEq

/-- Handle for the external `Handler` capability interface. -/
structure Handler where
  id : Nat
deriving DecidableEq

/-- Handle for the `Logger` capability interface (its five logging
methods are never invoked by the configuration layer). -/
structure Logger where
  id : Nat
deriving DecidableEq

/-- Handle for `*tls.Config` from crypto/tls. -/
structure TLSConfig where
  id : Nat
deriving DecidableEq

/-- Handle for `sarama.KafkaVersion` (a struct of four version numbers). -/
structure KafkaVersion where
  v0 : Nat
  v1 : Nat
  v2 : Nat
  v3 : Nat
deriving DecidableEq

/-- Embedding of `context.Context` as built by this layer:
`context.Background()` plus `context.WithValue` chains. -/
inductive GoContext where
  | background : GoContext
  | withValue : GoContext → GoAny → GoAny → GoContext
deriving DecidableEq

/-- The `Value` lookup of a Go context: a `WithValue` node answers for
its own key, otherwise delegates to its parent; `Background` has no
values. -/
def GoContext.value : GoContext → GoAny → Option GoAny
  | .background, _ => none
  | .withValue parent k v, q => if q = k then some v else parent.value q

/-- The `Strategy` interface: its single observable is the identity
string returned by the `Strategy()` method, so an interface value is
modelled by that string. -/
structure Strategy where
  strategyString : String
deriving DecidableEq

/-- The identity-reporting operation of the `Strategy` interface. -/
def Strategy.Strategy (s : Strategy) : String := s.strategyString

/-- Constant `StrategyKindRetry = "retry"`. -/
def StrategyKindRetry : String := "retry"

/-- Constant `StrategyKindDoOnce = "do_once"`. -/
def StrategyKindDoOnce : String := "do_once"

/-- Constant `StrategyKindSendBack = "send_back"`. -/
def StrategyKindSendBack : String := "send_back"

/-- Go `type strategyImpl string`, whose `Strategy()` method returns the
underlying string. -/
def strategyImpl (s : String) : Strategy := ⟨s⟩

/-- Singleton `StrategyRetry = strategyImpl(StrategyKindRetry)`. -/
def StrategyRetry : Strategy := strategyImpl StrategyKindRetry

/-- Singleton `StrategyDoOnce = strategyImpl(StrategyKindDoOnce)`. -/
def StrategyDoOnce : Strategy := strategyImpl StrategyKindDoOnce

/-- Singleton `StrategySendBack = strategyImpl(StrategyKindSendBack)`. -/
def StrategySendBack : Strategy := strategyImpl StrategyKindSendBack

/-- The `Options` struct of package mq (connection configuration). -/
structure Options where
  Addresses : List String
  Version : KafkaVersion
  Secure : Bool
  Codec : Option Codecer
  Username : String
  Password : String
  Algorithm : String
  ErrorHandler : Option Handler
  TLSConfig : Option TLSConfig
  Context : Option GoContext
  Log : Option Logger
  Otel : Bool
deriving DecidableEq

/-- The Go zero value of `Options`: nil slice, zero version, false
flags, empty strings, nil interface/pointer fields. -/
def zeroOptions : Options :=
  { Addresses := []
    Version := ⟨0, 0, 0, 0⟩
    Secure := false
    Codec := none
    Username := ""
    Password := ""
    Algorithm := ""
    ErrorHandler := none
    TLSConfig := none
    Context := none
    Log := none
    Otel := false }

/-- Configurator `Addresses(addrs ...string)`: replaces the address list. -/
def Addresses (addrs : List String) : Options → Options :=
  fun o => { o with Addresses := addrs }

/-- Configurator `Sasl(user, pass, algorithm)`: sets the three SASL
fields together. -/
def Sasl (user pass algorithm : String) : Options → Options :=
  fun o => { o with Username := user, Password := pass, Algorithm := algorithm }

/-- Configurator `Version(version)`: sets the kafka version. -/
def Version (version : KafkaVersion) : Options → Options :=
  fun o => { o with Version := version }

/-- Configurator `Secure(b)`: sets the secure-transport flag. -/
def Secure (b : Bool) : Options → Options :=
  fun o => { o with Secure := b }

/-- Configurator `Codec(c)`: sets the codec reference (no nil guard). -/
def Codec (c : Option Codecer) : Options → Options :=
  fun o => { o with Codec := c }

/-- Configurator `ErrorHandler(h)`: sets the error handler (no nil guard). -/
def ErrorHandler (h : Option Handler) : Options → Options :=
  fun o => { o with ErrorHandler := h }

/-- Configurator `SetTLSConfig(t)`: sets the TLS config pointer (no nil
guard). -/
def SetTLSConfig (t : Option TLSConfig) : Options → Options :=
  fun o => { o with TLSConfig := t }

/-- Configurator `Context(c)`: replaces the carried context wholesale
(no nil guard). -/
def Context (c : Option GoContext) : Options → Options :=
  fun o => { o with Context := c }

/-- Configurator `ContextWithValue(k, v)`: if the carried context is nil
it is first initialized to `context.Background()`, then the binding is
merged with `context.WithValue`. -/
def ContextWithValue (k v : GoAny) : Options → Options :=
  fun o => { o with Context := some ((o.Context.getD .background).withValue k v) }

/-- Configurator `Log(log)`: sets the logger only when the argument is
non-nil (`if log != nil { o.Log = log }`). -/
def Log (log : Option Logger) : Options → Options :=
  fun o => { o with Log := if log.isSome then log else o.Log }

/-- Configurator `Otel(b)`: sets the tracing-enabled flag. -/
def Otel (b : Bool) : Options → Options :=
  fun o => { o with Otel := b }

/-- Reification of the closed family of connection configurators defined
in options.go (the Go type is named `Option`; renamed here to avoid the
Lean builtin). -/
inductive ConnOption where
  | addresses (addrs : List String)
  | sasl (user pass algorithm : String)
  | version (v : KafkaVersion)
  | secure (b : Bool)
  | codec (c : Option Codecer)
  | errorHandler (h : Option Handler)
  | setTLSConfig (t : Option TLSConfig)
  | context (c : Option GoContext)
  | contextWithValue (k v : GoAny)
  | log (l : Option Logger)
  | otel (b : Bool)
deriving DecidableEq

/-- Applying a reified configurator is applying the corresponding
function from options.go. -/
def applyConnOption : ConnOption → Options → Options
  | .addresses addrs => Addresses addrs
  | .sasl user pass algorithm => Sasl user pass algorithm
  | .version v => Version v
  | .secure b => Secure b
  | .codec c => Codec c
  | .errorHandler h => ErrorHandler h
  | .setTLSConfig t => SetTLSConfig t
  | .context c => Context c
  | .contextWithValue k v => ContextWithValue k v
  | .log l => Log l
  | .otel b => Otel b

/-- The builder pass: apply an ordered list of configurators to a
settings record (the `for _, o := range opts { o(&opt) }` loop pattern). -/
def applyConnOptions (opts : List ConnOption) (o : Options) : Options :=
  opts.foldl (fun acc c => applyConnOption c acc) o

/-- The fields of `Options`, used to talk about which fields a
configurator writes. -/
inductive OptField where
  | addresses | version | secure | codec | username | password
  | algorithm | errorHandler | tlsConfig | context | log | otel
deriving DecidableEq

/-- The set of fields a configurator writes (syntactically, reading the
body of each configurator in options.go). -/
def touches : ConnOption → List OptField
  | .addresses _ => [.addresses]
  | .sasl _ _ _ => [.username, .password, .algorithm]
  | .version _ => [.version]
  | .secure _ => [.secure]
  | .codec _ => [.codec]
  | .errorHandler _ => [.errorHandler]
  | .setTLSConfig _ => [.tlsConfig]
  | .context _ => [.context]
  | .contextWithValue _ _ => [.context]
  | .log _ => [.log]
  | .otel _ => [.otel]

/-- Two configurators write disjoint sets of fields. -/
def DisjointTouches (c₁ c₂ : ConnOption) : Prop :=
  ∀ f ∈ touches c₁, f ∉ touches c₂

/-- A configurator is a plain setter when it overwrites its fields with
values independent of the current record: every configurator except
`ContextWithValue` (which merges into the existing context) and `Log`
with a nil argument (which is a no-op). -/
def isSetter : ConnOption → Bool
  | .contextWithValue _ _ => false
  | .log l => l.isSome
  | _ => true

/-- The `SubscribeOptions` struct of package mq. -/
structure SubscribeOptions where
  AutoAck : Bool
  Queue : String
  RetryNum : Int
  Strategy : Option Strategy
  Context : Option GoContext
deriving DecidableEq

/-- Configurator `DisableAutoAck()`: flips auto-ack to false. -/
def DisableAutoAck : SubscribeOptions → SubscribeOptions :=
  fun o => { o with AutoAck := false }

/-- Configurator `Queue(name)`: sets the queue-group name. -/
def Queue (name : String) : SubscribeOptions → SubscribeOptions :=
  fun o => { o with Queue := name }

/-- Configurator `SubscribeContext(ctx)`: replaces the carried context. -/
def SubscribeContext (ctx : Option GoContext) : SubscribeOptions → SubscribeOptions :=
  fun o => { o with Context := ctx }

/-- Configurator `SubscribeRetryNum(v int)`: sets RetryNum (any Go int). -/
def SubscribeRetryNum (v : Int) : SubscribeOptions → SubscribeOptions :=
  fun o => { o with RetryNum := v }

/-- Configurator `SubscribeStrategy(v Strategy)`: sets the strategy
(a nil interface value is allowed). -/
def SubscribeStrategy (v : Option Strategy) : SubscribeOptions → SubscribeOptions :=
  fun o => { o with Strategy := v }

/-- Reification of the closed family of subscribe configurators defined
in options.go. -/
inductive SubOption where
  | disableAutoAck
  | queue (name : String)
  | subscribeContext (ctx : Option GoContext)
  | subscribeRetryNum (v : Int)
  | subscribeStrategy (v : Option Strategy)
deriving DecidableEq

/-- Applying a reified subscribe configurator. -/
def applySubOption : SubOption → SubscribeOptions → SubscribeOptions
  | .disableAutoAck => DisableAutoAck
  | .queue name => Queue name
  | .subscribeContext ctx => SubscribeContext ctx
  | .subscribeRetryNum v => SubscribeRetryNum v
  | .subscribeStrategy v => SubscribeStrategy v

/-- Builder `NewSubscribeOptions(opts ...)`: starts from the record with
only `AutoAck: true` set (all other fields at their zero values) and
applies the configurators in order. -/
def NewSubscribeOptions (opts : List SubOption) : SubscribeOptions :=
  opts.foldl (fun acc c => applySubOption c acc)
    { AutoAck := true, Queue := "", RetryNum := 0, Strategy := none, Context := none }

/-- Modelled from the spec: the repository's connection constructor (the
code that consumes the finished `Options`) is not under src/; per the
spec the logger capability reference "falls back to a no-op logger".
This is the no-op logger value. -/
def noopLogger : Logger := ⟨0⟩

/-- Modelled from the spec: the finishing step of connection
configuration, absent from src/, which substitutes the no-op logger when
no logger was supplied. -/
def finishLog (o : Options) : Options :=
  if o.Log = none then { o with Log := some noopLogger } else o

/-- Modelled from the spec: building a finished connection configuration
from a configurator sequence — apply the configurators to the
default-initialized record, then apply the logger fallback. -/
def newOptions (opts : List ConnOption) : Options :=
  finishLog (applyConnOptions opts zeroOptions)

instance : ∀ c₁ c₂ : ConnOption, Decidable (DisjointTouches c₁ c₂) := fun c₁ c₂ =>
  inferInstanceAs (Decidable (∀ f ∈ touches c₁, f ∉ touches c₂))

/-- Configurators writing disjoint field sets commute. -/
lemma connOption_comm (c₁ c₂ : ConnOption) (o : Options) (h : DisjointTouches c₁ c₂) :
    applyConnOption c₂ (applyConnOption c₁ o) = applyConnOption c₁ (applyConnOption c₂ o) := by
  cases o
  cases c₁ <;> cases c₂ <;>
    first
      | rfl
      | (exfalso
         simp [DisjointTouches, touches] at h
         done)

/-- When a later plain setter covers all fields an earlier configurator
wrote, the later one alone determines the result. -/
lemma connOption_override (c₁ c₂ : ConnOption) (o : Options)
    (hsub : touches c₁ ⊆ touches c₂) (hset : isSetter c₂ = true) :
    applyConnOption c₂ (applyConnOption c₁ o) = applyConnOption c₂ o := by
  cases o
  cases c₁ <;> cases c₂ <;>
    first
      | rfl
      | (exfalso
         simp [touches, List.subset_def] at hsub
         done)
      | (exfalso
         simp [isSetter] at hset
         done)
      | (simp only [isSetter] at hset
         simp [applyConnOption, Log, hset]
         done)

/-- C1: connection configurators are last-write-wins: two configurators
writing disjoint fields commute (either order yields equal `Options`
records), and when two configurators write the same fields and the later
one is a plain setter, the later one alone determines the final value. -/
theorem connOption_last_write_wins :
    (∀ (c₁ c₂ : ConnOption) (o : Options), DisjointTouches c₁ c₂ →
      applyConnOption c₂ (applyConnOption c₁ o) = applyConnOption c₁ (applyConnOption c₂ o)) ∧
    (∀ (c₁ c₂ : ConnOption) (o : Options), touches c₁ ⊆ touches c₂ → isSetter c₂ = true →
      applyConnOption c₂ (applyConnOption c₁ o) = applyConnOption c₂ o) :=
  ⟨connOption_comm, connOption_override⟩

/-- Witness for C1 at concrete configurators. -/
theorem connOption_last_write_wins_witness :
    applyConnOption (.secure true) (applyConnOption (.addresses ["a"]) zeroOptions)
      = applyConnOption (.addresses ["a"]) (applyConnOption (.secure true) zeroOptions) ∧
    applyConnOption (.addresses ["b"]) (applyConnOption (.addresses ["a"]) zeroOptions)
      = applyConnOption (.addresses ["b"]) zeroOptions :=
  ⟨connOption_last_write_wins.1 _ _ _ (by decide),
   connOption_last_write_wins.2 _ _ _ (by decide) (by decide)⟩

/-- C2: `NewSubscribeOptions` with no configurators yields
AutoAck = true, Queue = "", RetryNum = 0 and a nil Strategy. -/
theorem newSubscribeOptions_empty_defaults :
    (NewSubscribeOptions []).AutoAck = true ∧
    (NewSubscribeOptions []).Queue = "" ∧
    (NewSubscribeOptions []).RetryNum = 0 ∧
    (NewSubscribeOptions []).Strategy = none :=
  ⟨rfl, rfl, rfl, rfl⟩

/-- C3: the three built-in strategy singletons report identity strings
exactly "retry", "do_once" and "send_back", and these are pairwise
distinct. -/
theorem builtin_strategy_strings :
    StrategyRetry.Strategy = "retry" ∧
    StrategyDoOnce.Strategy = "do_once" ∧
    StrategySendBack.Strategy = "send_back" ∧
    StrategyRetry.Strategy ≠ StrategyDoOnce.Strategy ∧
    StrategyRetry.Strategy ≠ StrategySendBack.Strategy ∧
    StrategyDoOnce.Strategy ≠ StrategySendBack.Strategy := by
  decide

/-- C4: `ContextWithValue(k, v)` on an `Options` record with nil context
first initializes the empty base context, then adds the binding, and the
resulting context answers `v` when queried for `k`. -/
theorem contextWithValue_on_nil (k v : GoAny) (o : Options) (h : o.Context = none) :
    (ContextWithValue k v o).Context
      = some (GoContext.withValue GoContext.background k v) ∧
    (GoContext.withValue GoContext.background k v).value k = some v := by
  constructor
  · simp [ContextWithValue, h]
  · simp [GoContext.value]

/-- Witness for C4 at key 1, value 2, on the zero record. -/
theorem contextWithValue_on_nil_witness :
    (ContextWithValue 1 2 zeroOptions).Context
      = some (GoContext.withValue GoContext.background 1 2) ∧
    (GoContext.withValue GoContext.background 1 2).value 1 = some 2 :=
  contextWithValue_on_nil 1 2 zeroOptions rfl

/-- C5: the `Log` configurator applied with a nil logger leaves the
record unchanged, so a previously-set logger keeps its value. -/
theorem log_nil_noop (o : Options) : Log none o = o := rfl

/-- C6: `SetTLSConfig` writes only the TLSConfig field and `Secure`
writes only the Secure flag; neither touches the other's field or any
other field of the record. -/
theorem secure_tls_independent (o : Options) (t : Option TLSConfig) (b : Bool) :
    (SetTLSConfig t o).TLSConfig = t ∧
    (SetTLSConfig t o).Secure = o.Secure ∧
    (SetTLSConfig t o).Addresses = o.Addresses ∧
    (SetTLSConfig t o).Version = o.Version ∧
    (SetTLSConfig t o).Codec = o.Codec ∧
    (SetTLSConfig t o).Username = o.Username ∧
    (SetTLSConfig t o).Password = o.Password ∧
    (SetTLSConfig t o).Algorithm = o.Algorithm ∧
    (SetTLSConfig t o).ErrorHandler = o.ErrorHandler ∧
    (SetTLSConfig t o).Context = o.Context ∧
    (SetTLSConfig t o).Log = o.Log ∧
    (SetTLSConfig t o).Otel = o.Otel ∧
    (Secure b o).Secure = b ∧
    (Secure b o).TLSConfig = o.TLSConfig ∧
    (Secure b o).Addresses = o.Addresses ∧
    (Secure b o).Version = o.Version ∧
    (Secure b o).Codec = o.Codec ∧
    (Secure b o).Username = o.Username ∧
    (Secure b o).Password = o.Password ∧
    (Secure b o).Algorithm = o.Algorithm ∧
    (Secure b o).ErrorHandler = o.ErrorHandler ∧
    (Secure b o).Context = o.Context ∧
    (Secure b o).Log = o.Log ∧
    (Secure b o).Otel = o.Otel := by
  refine ⟨rfl, rfl, rfl, rfl, rfl, rfl, rfl, rfl, rfl, rfl, rfl, rfl,
    rfl, rfl, rfl, rfl, rfl, rfl, rfl, rfl, rfl, rfl, rfl, rfl⟩

/-- Argument condition for C7: every `SubscribeRetryNum` configurator in
the sequence carries a non-negative argument. -/
def retryArgOk : SubOption → Bool
  | .subscribeRetryNum v => decide (0 ≤ v)
  | _ => true

/-- The retry count stays non-negative along the builder fold when every
retry-count argument is non-negative. -/
lemma retryNum_foldl_nonneg (opts : List SubOption) (o : SubscribeOptions)
    (h0 : 0 ≤ o.RetryNum) (h : ∀ c ∈ opts, retryArgOk c = true) :
    0 ≤ (opts.foldl (fun acc c => applySubOption c acc) o).RetryNum := by
  induction opts generalizing o with
  | nil => simpa using h0
  | cons c rest ih =>
    simp only [List.foldl_cons]
    refine ih _ ?_ (fun d hd => h d (List.mem_cons_of_mem _ hd))
    cases c
    case subscribeRetryNum v =>
      have hv := h _ (List.mem_cons_self _ _)
      simp only [retryArgOk, decide_eq_true_eq] at hv
      simpa [applySubOption, SubscribeRetryNum] using hv
    all_goals
      simpa [applySubOption, DisableAutoAck, Queue, SubscribeContext,
        SubscribeStrategy] using h0

/-- Counterexample to C7 as stated: `SubscribeRetryNum` accepts a
negative argument and the builder records it, so the built
`SubscribeOptions` can have a negative retry count. -/
theorem subscribeRetryNum_negative_counterexample :
    ¬ (0 ≤ (NewSubscribeOptions [SubOption.subscribeRetryNum (-1)]).RetryNum) := by
  decide

/-- C7 (amended): for every sequence of subscribe configurators whose
`SubscribeRetryNum` arguments are all non-negative, the built
`SubscribeOptions` satisfies RetryNum ≥ 0. -/
theorem newSubscribeOptions_retryNum_nonneg (opts : List SubOption)
    (h : ∀ c ∈ opts, retryArgOk c = true) :
    0 ≤ (NewSubscribeOptions opts).RetryNum :=
  retryNum_foldl_nonneg opts _ (by decide) h

/-- Witness for C7 (amended) at a concrete configurator sequence. -/
theorem newSubscribeOptions_retryNum_nonneg_witness :
    0 ≤ (NewSubscribeOptions [SubOption.subscribeRetryNum 3, SubOption.disableAutoAck]).RetryNum :=
  newSubscribeOptions_retryNum_nonneg _ (by decide)

/-- C8: after the spec-modelled finishing step, the configuration's
logger is never nil, and when no logger was supplied during
configuration it is exactly the no-op logger. -/
theorem log_fallback_noop (opts : List ConnOption) :
    (newOptions opts).Log ≠ none ∧
    ((applyConnOptions opts zeroOptions).Log = none →
      (newOptions opts).Log = some noopLogger) := by
  constructor
  · unfold newOptions finishLog
    by_cases h : (applyConnOptions opts zeroOptions).Log = none <;> simp [h]
  · intro h
    unfold newOptions finishLog
    simp [h]

/-- Witness for C8 at the empty configurator sequence. -/
theorem log_fallback_noop_witness :
    (newOptions []).Log ≠ none ∧ (newOptions []).Log = some noopLogger :=
  ⟨(log_fallback_noop []).1, (log_fallback_noop []).2 rfl⟩

/-- Argument condition for C9: every non-nil strategy supplied by a
`SubscribeStrategy` configurator in the sequence has a non-empty
identity string. -/
def strategyArgOk : SubOption → Bool
  | .subscribeStrategy (some s) => decide (s.Strategy ≠ "")
  | _ => true

/-- The strategy-nonempty invariant is preserved along the builder fold
when every supplied strategy has a non-empty identity string. -/
lemma strategy_foldl_nonempty (opts : List SubOption) (o : SubscribeOptions)
    (h0 : ∀ s, o.Strategy = some s → s.Strategy ≠ "")
    (h : ∀ c ∈ opts, strategyArgOk c = true) :
    ∀ s, (opts.foldl (fun acc c => applySubOption c acc) o).Strategy = some s →
      s.Strategy ≠ "" := by
  induction opts generalizing o with
  | nil => simpa using h0
  | cons c rest ih =>
    simp only [List.foldl_cons]
    refine ih _ ?_ (fun d hd => h d (List.mem_cons_of_mem _ hd))
    cases c
    case subscribeStrategy v =>
      cases v with
      | none =>
        intro s hs
        simp [applySubOption, SubscribeStrategy] at hs
      | some st =>
        intro s hs
        have hv := h _ (List.mem_cons_self _ _)
        simp only [strategyArgOk, decide_eq_true_eq] at hv
        simp only [applySubOption, SubscribeStrategy, Option.some.injEq] at hs
        exact hs ▸ hv
    all_goals
      intro s hs
      refine h0 s ?_
      simpa [applySubOption, DisableAutoAck, Queue, SubscribeContext,
        SubscribeRetryNum] using hs

/-- Counterexample to C9 as stated: `SubscribeStrategy` accepts any
strategy value, including one whose identity string is empty, and the
builder records it unchanged. -/
theorem subscribeStrategy_empty_counterexample :
    (NewSubscribeOptions [SubOption.subscribeStrategy (some (strategyImpl ""))]).Strategy
      = some (strategyImpl "") ∧
    (strategyImpl "").Strategy = "" :=
  ⟨rfl, rfl⟩

/-- C9 (amended): for every sequence of subscribe configurators in which
every supplied non-nil strategy has a non-empty identity string, the
built `SubscribeOptions` satisfies: a non-nil Strategy field has a
non-empty identity string. -/
theorem newSubscribeOptions_strategy_nonempty (opts : List SubOption)
    (h : ∀ c ∈ opts, strategyArgOk c = true) :
    ∀ s, (NewSubscribeOptions opts).Strategy = some s → s.Strategy ≠ "" :=
  strategy_foldl_nonempty opts _ (by simp [NewSubscribeOptions]) h

/-- Witness for C9 (amended) at a concrete configurator sequence. -/
theorem newSubscribeOptions_strategy_nonempty_witness :
    StrategyRetry.Strategy ≠ "" :=
  newSubscribeOptions_strategy_nonempty
    [SubOption.subscribeStrategy (some StrategyRetry)] (by decide) StrategyRetry rfl

/-- C10: unlike `Log`, the `Context`, `SetTLSConfig`, `ErrorHandler` and
`Codec` configurators have no nil guard: applying them with a nil
argument overwrites the corresponding field with nil. -/
theorem nil_argument_overwrites (o : Options) :
    (Context none o).Context = none ∧
    (SetTLSConfig none o).TLSConfig = none ∧
    (ErrorHandler none o).ErrorHandler = none ∧
    (Codec none o).Codec = none :=
  ⟨rfl, rfl, rfl, rfl⟩

end mq
